import Mathlib

/-!
Verification of the query-building and response-normalization logic of the
ted-scraper repository against its specification.

The repository consists of near-duplicate revisions of one small service:
`backup/app.py` (the revision with English-language priority), `app.py`
(the combined frontend+backend revision) and `app/app.py` (the revision with
a shared `search_notices_impl`).  Each revision is embedded below as pure
Lean functions over a JSON value type; Python string operations used by the
code (`split`, `strip`, `upper`, `replace`) are embedded as structurally
recursive char-list functions with Python semantics, and Python exceptions
are embedded with `Except`.
-/

/-- JSON values as delivered by the external TED API (`response.json()`). -/
inductive Json where
  | str (s : String)
  | num (n : Int)
  | bool (b : Bool)
  | null
  | arr (xs : List Json)
  | obj (fields : List (String × Json))

/-- Dictionary access: Python `d[k]` / `k in d` / `d.get(k)` on a JSON object,
modelled on the (insertion-ordered) field list; keys of a parsed JSON object
are unique, the first binding wins. -/
def lookupJ (k : String) : List (String × Json) → Option Json
  | [] => none
  | (k₀, v) :: rest => if k₀ = k then some v else lookupJ k rest

/-- Python `s.split(sep)` for a one-character separator: splits at every
occurrence, keeping empty pieces. -/
def splitOnChar (sep : Char) : List Char → List (List Char)
  | [] => [[]]
  | c :: rest =>
    let r := splitOnChar sep rest
    if c = sep then [] :: r
    else
      match r with
      | h :: t => (c :: h) :: t
      | [] => [[c]]

/-- Python `s.split(sep)` lifted to `String`. -/
def pySplit (sep : Char) (s : String) : List String :=
  (splitOnChar sep s.data).map fun l => ⟨l⟩

/-- Whitespace characters removed by Python `str.strip()`. -/
def isPySpace (c : Char) : Bool :=
  c = ' ' || c = '\t' || c = '\n' || c = '\r' || c = '\x0b' || c = '\x0c'

/-- Python `s.strip()`: removes leading and trailing whitespace. -/
def pyStrip (s : String) : String :=
  ⟨((s.data.dropWhile isPySpace).reverse.dropWhile isPySpace).reverse⟩

/-- Python `s.upper()` restricted to the ASCII range (the country codes the
code uppercases are ASCII). -/
def pyUpper (s : String) : String := ⟨s.data.map Char.toUpper⟩

/-- Python `s.replace(c, "")` for a one-character pattern and empty
replacement, the only form the code uses (`date.replace("-", "")`). -/
def pyRemoveAll (c : Char) (s : String) : String := ⟨s.data.filter fun x => x ≠ c⟩

/-- Decimal digits of a natural number, fuel-recursive so that the kernel can
evaluate it. -/
def natDigitsAux : Nat → Nat → List Char
  | 0, _ => []
  | _ + 1, 0 => []
  | fuel + 1, n =>
    natDigitsAux fuel (n / 10) ++ [Char.ofNat (48 + n % 10)]

/-- Python `str(n)` for an integer. -/
def pyIntStr (n : Int) : String :=
  match n with
  | .ofNat 0 => "0"
  | .ofNat m => ⟨natDigitsAux (m + 1) m⟩
  | .negSucc m => ⟨'-' :: natDigitsAux (m + 2) (m + 1)⟩

/-- Python `str(v)` applied to a JSON value, as used by f-string interpolation
and by `str(field_value[0])` in `extract_multilang_field`.  Scalars are
rendered faithfully; the exact Python repr of containers is immaterial to
every property proved in this file and is rendered as a marker. -/
def pyStr : Json → String
  | .str s => s
  | .num n => pyIntStr n
  | .bool true => "True"
  | .bool false => "False"
  | .null => "None"
  | .arr _ => "[list]"
  | .obj _ => "[dict]"

/-- Python truthiness of a JSON value (`if value:`). -/
def truthy : Json → Bool
  | .str s => s ≠ ""
  | .num n => n ≠ 0
  | .bool b => b
  | .null => false
  | .arr xs => !xs.isEmpty
  | .obj fs => !fs.isEmpty

/-- Truthiness test on an optional string field of a pydantic model
(`if request.filters.text:`): `None` and the empty string are falsy; returns
the value when truthy. -/
def strTruthy : Option String → Option String
  | some s => if s = "" then none else some s
  | none => none

/-- Truthiness test on an optional list field (`if filters.cpv_codes:`):
`None` and the empty list are falsy. -/
def listTruthy : Option (List String) → Option (List String)
  | some [] => none
  | some l => some l
  | none => none

/-!
Embedding of `src/backup/app.py`, the revision with English-language
priority.
-/

/-- Language preference order of `backup/app.py` (line 40). -/
def PREFERRED_LANGS : List String := ["eng", "deu", "fra"]

/-- Field list sent to the external API by `backup/app.py` (lines 30-36). -/
def SUPPORTED_FIELDS : List String :=
  ["publication-number", "publication-date", "notice-title", "buyer-name", "buyer-country"]

/-- Fallback broad-history query of `backup/app.py` (lines 81-82). -/
def get_historical_broad : String := "(publication-date >= 19930101)"

/-- One step of the value resolution inside the dict branch of
`extract_multilang_field` (lines 104-107 and 110-113): a non-empty list
yields its first element, a string yields itself, anything else is not
returned and the loop continues. -/
def resolveVal : Json → Option Json
  | .arr (x :: _) => some x
  | .str s => some (.str s)
  | _ => none

/-- The preferred-language loop of `extract_multilang_field`
(lines 101-107): for each language in order, if the key is present and its
value resolves, return it, otherwise continue. -/
def findPreferred (fields : List (String × Json)) : List String → Option Json
  | [] => none
  | lang :: rest =>
    match lookupJ lang fields with
    | some val =>
      match resolveVal val with
      | some r => some r
      | none => findPreferred fields rest
    | none => findPreferred fields rest

/-- The fallback loop of `extract_multilang_field` over
`field_value.values()` (lines 109-113). -/
def firstValue : List Json → Option Json
  | [] => none
  | v :: vs =>
    match resolveVal v with
    | some r => some r
    | none => firstValue vs

/-- The multilingual field extractor of `backup/app.py` (lines 85-119).
Python annotates the return type as `str` but the dict branch returns the
raw selected value, which need not be a string; the embedding therefore
returns `Json`, with plain strings wrapped in `Json.str`. -/
def extract_multilang_field (field_value : Json) (default : String) : Json :=
  match field_value with
  | .str s => .str s
  | .obj fields =>
    match findPreferred fields PREFERRED_LANGS with
    | some r => r
    | none =>
      match firstValue (fields.map Prod.snd) with
      | some r => r
      | none => .str default
  | .arr (x :: _) =>
    match x with
    | .str s => .str s
    | _ => .str (pyStr x)
  | _ => .str default

/-- The `Filters` pydantic model of `backup/app.py` (lines 43-47); all
fields optional. -/
structure Filters where
  text : Option String := none
  publication_date_from : Option String := none
  publication_date_to : Option String := none
  country : Option String := none

/-- The `SearchRequest` pydantic model of `backup/app.py` (lines 50-53). -/
structure SearchRequest where
  filters : Option Filters := none
  page : Int := 1
  limit : Int := 25

/-- The free-text clause of `search_notices` (`backup/app.py` lines
128-132): the stripped text is interpolated, in quotes, into a fuzzy match
against title and buyer name. -/
def textTerms (f : Filters) : List String :=
  match strTruthy f.text with
  | some raw =>
    let text := pyStrip raw
    ["(notice-title ~ \"" ++ text ++ "\" OR buyer-name ~ \"" ++ text ++ "\")"]
  | none => []

/-- The country list comprehension of `search_notices` (lines 136-140):
`[c.strip().upper() for c in country.split(",") if c.strip()]`. -/
def countryCodesOf (s : String) : List String :=
  (pySplit ',' s).filterMap fun c =>
    if pyStrip c = "" then none else some (pyUpper (pyStrip c))

/-- The country clause construction of `search_notices` (lines 141-148):
nothing for an empty code list, a single equality clause for one code, and
OR-joined equality clauses inside one outer parenthesis otherwise. -/
def countryClauseOfCodes : List String → List String
  | [] => []
  | [c] => ["(buyer-country = " ++ c ++ ")"]
  | cs =>
    ["(" ++ String.intercalate " OR "
      (cs.map fun c => "(buyer-country = " ++ c ++ ")") ++ ")"]

/-- The country filter handling of `search_notices` (lines 134-148). -/
def countryTerms (f : Filters) : List String :=
  match strTruthy f.country with
  | some s => countryClauseOfCodes (countryCodesOf s)
  | none => []

/-- The date lower-bound clause of `search_notices` (lines 150-153). -/
def dateFromTerms (f : Filters) : List String :=
  match strTruthy f.publication_date_from with
  | some d =>
    let fd := pyRemoveAll '-' d
    if fd = "" then [] else ["(publication-date >= " ++ fd ++ ")"]
  | none => []

/-- The date upper-bound clause of `search_notices` (lines 155-158). -/
def dateToTerms (f : Filters) : List String :=
  match strTruthy f.publication_date_to with
  | some d =>
    let td := pyRemoveAll '-' d
    if td = "" then [] else ["(publication-date <= " ++ td ++ ")"]
  | none => []

/-- The `query_terms` accumulation of `search_notices` (lines 125-158), in
the order the code appends: text, country, date-from, date-to. -/
def backupQueryTerms : Option Filters → List String
  | none => []
  | some f => textTerms f ++ countryTerms f ++ dateFromTerms f ++ dateToTerms f

/-- The expert-query assembly of `search_notices` (lines 160-163): the broad
historical fallback when no term was emitted, otherwise the AND-join. -/
def backupExpertQuery (filters : Option Filters) : String :=
  match backupQueryTerms filters with
  | [] => get_historical_broad
  | ts => String.intercalate " AND " ts

/-- The outbound request payload shape shared by the revisions. -/
structure TedPayload where
  query : String
  page : Int
  limit : Int
  fields : List String
  scope : Option String := none

/-- The payload of `backup/app.py` `search_notices` (lines 169-174): the
page number is clamped to at least 1 and the limit into the range 1..100. -/
def backupPayload (request : SearchRequest) : TedPayload :=
  { query := backupExpertQuery request.filters
    page := max 1 request.page
    limit := min 100 (max 1 request.limit)
    fields := SUPPORTED_FIELDS }

/-- Python exceptions relevant to the request handlers: a FastAPI
`HTTPException` carrying a status code and detail, an `httpx.RequestError`
(transport failure), and any other exception with its message. -/
inductive PyExc where
  | httpExc (status : Int) (detail : String)
  | requestError (msg : String)
  | otherExc (msg : String)

/-- Pydantic validation of a required `str` field, modelled strictly: a
non-string JSON value fails validation. -/
def asStr : Json → Except PyExc String
  | .str s => .ok s
  | _ => .error (.otherExc "ValidationError")

/-- Pydantic validation of an `Optional[str]` field, modelled strictly. -/
def asOptStr : Json → Except PyExc (Option String)
  | .str s => .ok (some s)
  | .null => .ok none
  | _ => .error (.otherExc "ValidationError")

/-- The `Notice` pydantic model of `backup/app.py` (lines 56-61). -/
structure BackupNotice where
  publication_number : String
  publication_date : Option String := none
  title : Option String := none
  buyer : Option String := none
  country : Option String := none

/-- The per-item `Notice` construction inside the loop of `search_notices`
(`backup/app.py` lines 206-220).  Attribute access on a non-dict item and
pydantic validation failures raise; the loop has no per-record handler, so
the error propagates. -/
def backupParseItem (item : Json) : Except PyExc BackupNotice :=
  match item with
  | .obj fields => do
    let pn ← asStr ((lookupJ "publication-number" fields).getD (.str "N/A"))
    let pd ← asOptStr ((lookupJ "publication-date" fields).getD .null)
    let title ← asOptStr
      (extract_multilang_field ((lookupJ "notice-title" fields).getD .null) "No title")
    let buyer ← asOptStr
      (extract_multilang_field ((lookupJ "buyer-name" fields).getD .null) "Unknown buyer")
    let country ← asOptStr
      (extract_multilang_field ((lookupJ "buyer-country" fields).getD .null) "Unknown")
    .ok { publication_number := pn, publication_date := pd,
          title := title, buyer := buyer, country := country }
  | _ => .error (.otherExc "AttributeError")

/-- The notice loop of `search_notices` (`backup/app.py` lines 205-220): no
per-record isolation, the first raising record aborts the batch. -/
def backupParseItems : List Json → Except PyExc (List BackupNotice)
  | [] => .ok []
  | item :: rest => do
    let n ← backupParseItem item
    let ns ← backupParseItems rest
    .ok (n :: ns)

/-- Python `len(v)` of a JSON value; raises `TypeError` on values without a
length. -/
def jsonLen : Json → Except PyExc Int
  | .arr xs => .ok xs.length
  | .str s => .ok s.length
  | .obj fs => .ok fs.length
  | _ => .error (.otherExc "TypeError")

/-- The record-list probe of `backup/app.py` (line 199):
`data.get("notices", [])` - only the key `notices` is consulted. -/
def backupRecordList (data : List (String × Json)) : Json :=
  (lookupJ "notices" data).getD (.arr [])

/-- The total-count probe of `backup/app.py` (line 200):
`data.get("total", len(notices_data))`.  Python evaluates the default
eagerly, so `len` runs even when the key `total` is present. -/
def backupTotalJ (data : List (String × Json)) : Except PyExc Json := do
  let len ← jsonLen (backupRecordList data)
  pure ((lookupJ "total" data).getD (.num len))

/-- Python iteration over a JSON value (`for item in notices_data`): a list
yields its elements, a string its characters, a dict its keys; other values
raise `TypeError`. -/
def iterItems : Json → Except PyExc (List Json)
  | .arr xs => .ok xs
  | .str s => .ok (s.data.map fun c => .str ⟨[c]⟩)
  | .obj fs => .ok (fs.map fun kv => .str kv.1)
  | _ => .error (.otherExc "TypeError")

/-- Python `text[:200]`. -/
def take200 (s : String) : String := ⟨s.data.take 200⟩

/-- The error-detail computation of `search_notices` (`backup/app.py` lines
185-189): `response.json().get("message", response.text[:200]) if
response.content else "No response"`. -/
def errorDetail (body : Option Json) (text : String) (hasContent : Bool) :
    Except PyExc String :=
  if hasContent then
    match body with
    | none => .error (.otherExc "JSONDecodeError")
    | some (.obj fs) =>
      match lookupJ "message" fs with
      | some v => .ok (pyStr v)
      | none => .ok (take200 text)
    | some _ => .error (.otherExc "AttributeError")
  else .ok "No response"

/-- Python `str(e)` for the modelled exceptions; for a Starlette
`HTTPException` this is the status code followed by the detail. -/
def strOfExc : PyExc → String
  | .httpExc status detail => pyIntStr status ++ ": " ++ detail
  | .requestError msg => msg
  | .otherExc msg => msg

/-- The `SearchResponse` pydantic model of `backup/app.py` (lines 64-66). -/
structure BackupSearchResponse where
  total : Int
  notices : List BackupNotice

/-- The abstract outcome of the outbound `httpx` call: either a response
with a status code, an optional parsed JSON body (`none` when the body is
not valid JSON), the raw text and a content flag, or a transport failure. -/
inductive CallOutcome where
  | response (status : Int) (body : Option Json) (text : String) (hasContent : Bool)
  | transportFailure (msg : String)

/-- The body of the `try` block of `search_notices` (`backup/app.py` lines
124-223) after the outbound call: the non-200 branch raises an
`HTTPException` carrying the upstream status (lines 184-194), the success
branch normalizes the response (lines 196-223).  A transport failure is an
`httpx.RequestError` raised inside the `try`. -/
def backupTryBody (outcome : CallOutcome) : Except PyExc BackupSearchResponse :=
  match outcome with
  | .transportFailure msg => .error (.requestError msg)
  | .response status body text hasContent =>
    if status ≠ 200 then do
      let d ← errorDetail body text hasContent
      Except.error (.httpExc status ("TED API error: " ++ d))
    else do
      let data ← match body with
        | some j => Except.ok j
        | none => Except.error (PyExc.otherExc "JSONDecodeError")
      let fs ← match data with
        | .obj fs => Except.ok fs
        | _ => Except.error (PyExc.otherExc "AttributeError")
      let totalJ ← backupTotalJ fs
      let items ← iterItems (backupRecordList fs)
      let notices ← backupParseItems items
      let total ← match totalJ with
        | .num n => Except.ok n
        | _ => Except.error (PyExc.otherExc "ValidationError")
      .ok { total := total, notices := notices }

/-- The `/search` handler of `backup/app.py` (lines 122-230) as observed by
the inbound caller: the result of the `try` body filtered through the
`except` clauses.  `except httpx.RequestError` maps a transport failure to
a 502 connection error; the final `except Exception` maps every other
exception - including the `HTTPException` raised for a non-200 upstream
response - to a 500 whose detail is `str(e)`. -/
def search_notices (outcome : CallOutcome) : Except (Int × String) BackupSearchResponse :=
  match backupTryBody outcome with
  | .ok r => .ok r
  | .error (.requestError msg) => .error (502, "Connection error: " ++ msg)
  | .error e => .error (500, strOfExc e)

/-!
Embedding of `src/app.py`, the combined frontend+backend revision.
-/

/-- The `SearchFilters` pydantic model of `app.py` (lines 68-78).  The
`date` fields are represented by their ISO rendering, which is what the
query builder interpolates; the numeric value bounds are never read by the
embedded logic. -/
structure SearchFilters where
  full_text : Option String := none
  cpv_codes : Option (List String) := none
  buyer_countries : Option (List String) := none
  notice_types : Option (List String) := none
  min_value : Option Float := none
  max_value : Option Float := none
  publication_date_from : Option String := none
  publication_date_to : Option String := none
  procedure_type : Option String := none
  contract_status : Option String := none

/-- The query builder of `app.py` (lines 168-195): one part per populated
filter, AND-joined; with no parts the query is the bare wildcard `*`. -/
def build_ted_query (filters : SearchFilters) : String :=
  let query_parts : List String :=
    (match strTruthy filters.full_text with
     | some t => [t]
     | none => []) ++
    (match listTruthy filters.cpv_codes with
     | some codes =>
       ["cpv-code:" ++ String.intercalate " OR " (codes.map fun code => "(" ++ code ++ ")")]
     | none => []) ++
    (match listTruthy filters.buyer_countries with
     | some cs =>
       ["place-of-performance:" ++ String.intercalate " OR " (cs.map fun c => "(" ++ c ++ ")")]
     | none => []) ++
    (match strTruthy filters.publication_date_from with
     | some d => ["publication-date:[" ++ d ++ "]"]
     | none => []) ++
    (match strTruthy filters.publication_date_to with
     | some d => ["publication-date:[*+TO+" ++ d ++ "]"]
     | none => [])
  let query_parts := if query_parts.isEmpty then ["*"] else query_parts
  String.intercalate " AND " query_parts

/-- The `NoticeItem` pydantic model of `app.py` (lines 92-104). -/
structure NoticeItem where
  publication_number : String
  publication_date : Option String := none
  notice_type : Option String := none
  buyer_name : Option String := none
  title : Option String := none
  cpv_codes : Option (List String) := none
  country : Option String := none
  estimated_value : Option Float := none
  deadline : Option String := none
  content_html : Option String := none
  url : Option String := none
  metadata : Option (List (String × Json)) := none

/-- The value access pattern of `parse_ted_response` (`app.py` lines
210-212): `notice.get(key) or notice.get(key, {}).get("value", "N/A")`.
When the key is absent the second access yields the placeholder; when the
value is falsy but not a dict, the chained `.get` raises
`AttributeError`. -/
def fieldOrValue (fields : List (String × Json)) (key : String) : Except PyExc Json :=
  match lookupJ key fields with
  | none => .ok (.str "N/A")
  | some v =>
    if truthy v then .ok v
    else
      match v with
      | .obj fs2 => .ok ((lookupJ "value" fs2).getD (.str "N/A"))
      | _ => .error (.otherExc "AttributeError")

/-- The CPV normalization of `parse_ted_response` (`app.py` lines 215-219):
a string becomes a one-element list, a list is kept, anything else becomes
the empty list. -/
def cpvListOf (fields : List (String × Json)) : List Json :=
  match (lookupJ "cpv-code" fields).getD (.arr []) with
  | .str s => [.str s]
  | .arr xs => xs
  | _ => []

/-- Pydantic validation of a `List[str]` value, modelled strictly. -/
def asStrList : List Json → Except PyExc (List String)
  | [] => .ok []
  | .str s :: rest => do
    let r ← asStrList rest
    .ok (s :: r)
  | _ => .error (.otherExc "ValidationError")

/-- The per-record body of the loop of `parse_ted_response` (`app.py` lines
205-236), including the `NoticeItem` validation; the surrounding
`try/except` turns any raised exception into skipping the record, hence the
`Option` result. -/
def parseOneNotice (notice : Json) : Option NoticeItem :=
  let computed : Except PyExc NoticeItem :=
    match notice with
    | .obj fields => do
      let pnJ := (lookupJ "publication-number" fields).getD (.str "N/A")
      let titleJ ← fieldOrValue fields "notice-title"
      let buyerJ ← fieldOrValue fields "buyer-name"
      let countryJ ← fieldOrValue fields "place-of-performance"
      let cpv := cpvListOf fields
      let pn ← asStr pnJ
      let pd ← asOptStr ((lookupJ "publication-date" fields).getD .null)
      let nt ← asOptStr ((lookupJ "notice-type" fields).getD .null)
      let buyer ← asOptStr buyerJ
      let title ← asOptStr titleJ
      let cpvs ← if cpv.isEmpty then pure none else Except.map some (asStrList cpv)
      let country ← asOptStr countryJ
      let url := if pn ≠ "N/A" then some ("https://ted.europa.eu/en/notice/" ++ pn) else none
      Except.ok { publication_number := pn, publication_date := pd, notice_type := nt,
                  buyer_name := buyer, title := title, cpv_codes := cpvs,
                  country := country, url := url }
    | _ => .error (.otherExc "AttributeError")
  match computed with
  | .ok n => some n
  | .error _ => none

/-- The loop of `parse_ted_response` over the record list (`app.py` lines
205-236): per-record isolation, failing records are skipped, order is
preserved. -/
def parseNoticesLoop (results : List Json) : List NoticeItem :=
  results.filterMap parseOneNotice

/-- The record-list probe of `parse_ted_response` (`app.py` line 203):
`data.get("results", [])` - only the key `results` is consulted. -/
def combinedResults (data : List (String × Json)) : Json :=
  (lookupJ "results" data).getD (.arr [])

/-- The full `parse_ted_response` of `app.py` (lines 198-238). -/
def parse_ted_response (data : Json) : Except PyExc (List NoticeItem) :=
  match data with
  | .obj fields => do
    let items ← iterItems (combinedResults fields)
    .ok (parseNoticesLoop items)
  | _ => .error (.otherExc "AttributeError")

/-- The total-count probe of the `/search` handler of `app.py` (line 369):
`ted_response.get("total", 0)` - the default is 0, not the record count. -/
def combinedTotal (data : List (String × Json)) : Json :=
  (lookupJ "total" data).getD (.num 0)

/-- The page computation of the `/search` handler of `app.py` (line 370):
`(total_notices + request.page_size - 1) // page_size` on non-negative
integers. -/
def total_pages (total_notices page_size : Nat) : Nat :=
  (total_notices + page_size - 1) / page_size

/-!
Embedding of `src/app/app.py`, the revision with a shared
`search_notices_impl`.
-/

/-- The `query_parts` accumulation of `search_notices_impl` (`app/app.py`
lines 95-106). -/
def implQueryParts : Option Filters → List String
  | none => []
  | some f =>
    (match strTruthy f.text with
     | some t => ["(" ++ t ++ ")"]
     | none => []) ++
    (match strTruthy f.country with
     | some c => ["country-of-buyer:" ++ pyUpper c]
     | none => []) ++
    (match strTruthy f.publication_date_from with
     | some d => ["publication-date>=" ++ pyRemoveAll '-' d]
     | none => []) ++
    (match strTruthy f.publication_date_to with
     | some d => ["publication-date<=" ++ pyRemoveAll '-' d]
     | none => [])

/-- The expert-query assembly of `search_notices_impl` (`app/app.py` line
108): the wildcard when no part was emitted. -/
def implExpertQuery (filters : Option Filters) : String :=
  match implQueryParts filters with
  | [] => "*"
  | ts => String.intercalate " AND " ts

/-- The payload of `search_notices_impl` (`app/app.py` lines 112-118): the
same page and limit clamps as `backup/app.py`. -/
def implPayload (request : SearchRequest) : TedPayload :=
  { query := implExpertQuery request.filters
    page := max 1 request.page
    limit := min 100 (max 1 request.limit)
    fields := ["CONTENT"]
    scope := some "LATEST" }

/-- Modelled from the spec: the date normalization described in section 4.2
("normalization truncates to the calendar-date prefix only (fixed-width
truncation to the date portion)") is not present in any revision under
`src/`; the revisions there pass `publication-date` through unchanged.  The
fixed-width truncation keeps the 10-character `YYYY-MM-DD` prefix. -/
def normalize_date (raw : String) : String := ⟨raw.data.take 10⟩

/-!
Definitions written from the words of the specification, to be compared
with the embeddings above.
-/

/-- Resolution of a selected multilingual value as the specification words
it: a non-empty list resolves to its first element, a string to itself;
anything else does not resolve. -/
def claimResolve : Json → Option Json
  | .str s => some (.str s)
  | .arr (x :: _) => some x
  | _ => none

/-- Selection as claim C1 words it: the value of the first preferred
language present in the mapping, falling back to the first entry in
iteration order when no preferred language is present. -/
def claimSelect (fields : List (String × Json)) : Option Json :=
  match PREFERRED_LANGS.findSome? fun lang => lookupJ lang fields with
  | some v => some v
  | none => fields.head?.map Prod.snd

/-- Extraction from a mapping as claim C1 words it: select, then resolve the
selected value, with the default placeholder when resolution is
impossible. -/
def claimExtractDict (fields : List (String × Json)) (default : String) : Json :=
  match claimSelect fields with
  | some v => (claimResolve v).getD (.str default)
  | none => .str default

/-- Country-code cleanup as claim C7 words it: split on commas, trim
whitespace, discard empty entries, uppercase each code. -/
def claimCountryCodes (s : String) : List String :=
  (((pySplit ',' s).map pyStrip).filter fun c => c ≠ "").map pyUpper

/-- Country clause as claim C7 words it: no clause without codes, exactly
one equality clause for a single code, OR-combined equality clauses inside
one outer parenthesis in input order otherwise. -/
def claimCountryClause : List String → Option String
  | [] => none
  | [c] => some ("(buyer-country = " ++ c ++ ")")
  | cs =>
    some ("(" ++ String.intercalate " OR "
      (cs.map fun c => "(buyer-country = " ++ c ++ ")") ++ ")")

/-- Record-list probe as claim C5 words it: both candidate keys are
probed and the first one present is used, defaulting to the empty list. -/
def claimRecordList (data : List (String × Json)) : Json :=
  ((lookupJ "results" data).or (lookupJ "notices" data)).getD (.arr [])

/-- Total-count probe as claim C5 words it, evaluated on a body in which
no total key is present at all: the default is the length of the returned
record list.  The second candidate total key is not identified by the
revisions under `src/` (both read only `total`), so the claim is compared
on bodies where no total key occurs. -/
def claimTotal (data : List (String × Json)) (recordCount : Int) : Json :=
  (lookupJ "total" data).getD (.num recordCount)

/-!
Helper lemmas relating the loop-style embeddings to candidate-list form.
-/

/-- The one-step resolution of the code coincides with the resolution worded
by the specification. -/
theorem resolveVal_eq_claimResolve (v : Json) : resolveVal v = claimResolve v := by
  cases v with
  | str s => rfl
  | num n => rfl
  | bool b => rfl
  | null => rfl
  | arr xs => cases xs <;> rfl
  | obj fs => rfl

/-- The preferred-language loop is the first resolvable value among the
values of the present preferred languages, in preference order. -/
theorem findPreferred_eq_findSome (fields : List (String × Json)) (langs : List String) :
    findPreferred fields langs =
      (langs.filterMap fun lang => lookupJ lang fields).findSome? claimResolve := by
  induction langs with
  | nil => rfl
  | cons lang rest ih =>
    cases h : lookupJ lang fields with
    | none =>
      simp only [findPreferred, h, List.filterMap_cons, ih]
    | some val =>
      simp only [findPreferred, h, List.filterMap_cons, List.findSome?_cons,
        resolveVal_eq_claimResolve, ih]
      cases hr : claimResolve val <;> simp [hr]

/-- The fallback loop over all values is the first resolvable value in
iteration order. -/
theorem firstValue_eq_findSome (vals : List Json) :
    firstValue vals = vals.findSome? claimResolve := by
  induction vals with
  | nil => rfl
  | cons v vs ih =>
    simp only [firstValue, resolveVal_eq_claimResolve, List.findSome?_cons, ih]
    cases hr : claimResolve v <;> simp [hr]

/-- The country comprehension of the code equals the cleanup worded by the
claim. -/
theorem countryCodesOf_eq_claim (s : String) :
    countryCodesOf s = claimCountryCodes s := by
  unfold countryCodesOf claimCountryCodes
  induction pySplit ',' s with
  | nil => rfl
  | cons c rest ih =>
    by_cases h : pyStrip c = "" <;>
      simp [List.filterMap_cons, h, ih]

/-!
Claims.
-/

/-- C1 (amended): claim C1 states that, for a mapping field value,
`extract_multilang_field` selects the value of the first preferred language
present (order eng, deu, fra), falling back to the first entry in iteration
order when no preferred language is present, and then resolves the selected
value.  On the code this fails when a preferred language is present but its
value resolves to nothing (for example an empty list): the loop then moves
on instead of selecting it.  Amended: the function returns the first value
that resolves (a string, or a non-empty list taken at its first element)
among the values of the present preferred languages in preference order and
then all entries in iteration order, with the default placeholder when no
value resolves; in particular extracting the mapping with eng mapped to
["Road repair"] and fra mapped to ["Réparation"] yields "Road repair". -/
theorem extract_multilang_field_dict_amended (fields : List (String × Json)) (default : String) :
    extract_multilang_field (.obj fields) default =
      ((((PREFERRED_LANGS.filterMap fun lang => lookupJ lang fields) ++
          fields.map Prod.snd).findSome? claimResolve).getD (.str default)) ∧
    extract_multilang_field
        (.obj [("eng", .arr [.str "Road repair"]), ("fra", .arr [.str "Réparation"])])
        "N/A" = .str "Road repair" := by
  constructor
  · rw [List.findSome?_append]
    show (match findPreferred fields PREFERRED_LANGS with
      | some r => r
      | none =>
        match firstValue (fields.map Prod.snd) with
        | some r => r
        | none => .str default) = _
    rw [findPreferred_eq_findSome, firstValue_eq_findSome]
    cases h1 : (PREFERRED_LANGS.filterMap fun lang => lookupJ lang fields).findSome? claimResolve <;>
      cases h2 : (fields.map Prod.snd).findSome? claimResolve <;>
        simp [Option.or, h1, h2]
  · rfl

/-- C1 (counterexample): on the mapping with eng mapped to the empty list
and deu mapped to "Titel", the claim as stated selects the value of eng (the
first preferred language present), which cannot resolve to any string, so
the claimed extraction yields the placeholder; the code instead skips eng
and returns "Titel". -/
theorem extract_multilang_field_dict_counterexample :
    claimExtractDict [("eng", .arr []), ("deu", .str "Titel")] "N/A" = .str "N/A" ∧
    extract_multilang_field (.obj [("eng", .arr []), ("deu", .str "Titel")]) "N/A" =
      .str "Titel" ∧
    Json.str "N/A" ≠ Json.str "Titel" := by
  refine ⟨rfl, rfl, ?_⟩
  simp

/-- C2 (counterexample): claim C2 states that every query builder of the
repository produces the broad-history clause on an all-empty filter set and
never a bare wildcard; `build_ted_query` of the combined revision produces
exactly the bare wildcard. -/
theorem build_ted_query_empty_wildcard :
    build_ted_query {} = "*" ∧ ("*" : String) ≠ get_historical_broad := by
  exact ⟨rfl, by decide⟩

/-- C2 (amended): in the backup revision the claim holds: an absent or
all-empty filter set yields exactly the broad-history clause
"(publication-date >= 19930101)", which is non-empty and is not the bare
wildcard; the combined revision's `build_ted_query` instead yields "*". -/
theorem empty_filters_broad_query (filters : Option Filters)
    (h : filters = none ∨ filters = some {}) :
    backupExpertQuery filters = "(publication-date >= 19930101)" ∧
    backupExpertQuery filters ≠ "" ∧
    backupExpertQuery filters ≠ "*" := by
  rcases h with h | h <;> subst h <;> exact ⟨rfl, by decide, by decide⟩

/-- C2 (witness): the amended statement at the absent filter set. -/
theorem empty_filters_broad_query_witness :
    ((none : Option Filters) = none ∨ (none : Option Filters) = some {}) ∧
    (backupExpertQuery none = "(publication-date >= 19930101)" ∧
     backupExpertQuery none ≠ "" ∧ backupExpertQuery none ≠ "*") :=
  ⟨Or.inl rfl, empty_filters_broad_query none (Or.inl rfl)⟩

/-- C3 (amended): in the combined revision the claim holds of the
normalizer loop: it is a total function, a record that raises a structural
error is skipped while the records before and after it are processed in
input order, and a record missing every target field yields the default
placeholders rather than an exception.  In the backup revision, however, a
raising record aborts the whole batch (see the counterexample). -/
theorem parse_ted_response_isolation (pre post : List Json) (r : Json) :
    parseNoticesLoop (pre ++ r :: post) =
      parseNoticesLoop pre ++ (parseOneNotice r).toList ++ parseNoticesLoop post ∧
    parseOneNotice (.obj []) =
      some { publication_number := "N/A", title := some "N/A",
             buyer_name := some "N/A", country := some "N/A" } ∧
    parseOneNotice (.str "not a record") = none := by
  refine ⟨?_, rfl, rfl⟩
  unfold parseNoticesLoop
  cases h : parseOneNotice r <;>
    simp [List.filterMap_append, List.filterMap_cons, h]

/-- C3 (counterexample): claim C3 states the normalizer never raises and
that a record failing with a structural error is skipped while processing
continues.  In the backup revision a record whose publication number is a
mapping fails `Notice` validation and the loop has no per-record handler:
the whole batch errors out, although the same batch without the bad record
parses fine. -/
theorem backup_parse_batch_failure :
    backupParseItems [Json.obj [], Json.obj [("publication-number", Json.obj [])]] =
      .error (.otherExc "ValidationError") ∧
    backupParseItems [Json.obj []] =
      .ok [{ publication_number := "N/A", title := some "No title",
             buyer := some "Unknown buyer", country := some "Unknown" }] := by
  exact ⟨rfl, rfl⟩

/-- C4: a date value carrying any trailing timezone offset after the
10-character calendar date is truncated by the normalization to exactly the
calendar-date prefix. -/
theorem normalize_date_truncates (datePart rest : List Char) (h : datePart.length = 10) :
    normalize_date ⟨datePart ++ rest⟩ = ⟨datePart⟩ := by
  unfold normalize_date
  congr 1
  rw [← h]
  exact List.take_left datePart rest

/-- C4 (witness): "2025-09-30+02:00" normalizes to "2025-09-30". -/
theorem normalize_date_truncates_witness :
    ("2025-09-30".data.length = 10) ∧
    normalize_date "2025-09-30+02:00" = "2025-09-30" := by
  refine ⟨by decide, ?_⟩
  exact normalize_date_truncates "2025-09-30".data "+02:00".data (by decide)

/-- C5 (amended): each revision probes one version-specific record-list key
and never fails on its absence: the backup revision reads only the key
"notices" (default empty list) and defaults the total to the length of the
record list; the combined revision reads only the key "results" (default
empty list) and defaults the total to 0, not to the record count. -/
theorem response_keys_probed (data : List (String × Json)) :
    (∀ v, lookupJ "notices" data = some v → backupRecordList data = v) ∧
    (lookupJ "notices" data = none → backupRecordList data = .arr []) ∧
    (∀ xs, lookupJ "notices" data = some (.arr xs) → lookupJ "total" data = none →
      backupTotalJ data = .ok (.num xs.length)) ∧
    (∀ v, lookupJ "results" data = some v → combinedResults data = v) ∧
    (lookupJ "results" data = none → combinedResults data = .arr []) ∧
    (lookupJ "total" data = none → combinedTotal data = .num 0) := by
  refine ⟨?_, ?_, ?_, ?_, ?_, ?_⟩
  · intro v h
    unfold backupRecordList
    rw [h]
    rfl
  · intro h
    unfold backupRecordList
    rw [h]
    rfl
  · intro xs h1 h2
    unfold backupTotalJ backupRecordList
    rw [h1, h2]
    rfl
  · intro v h
    unfold combinedResults
    rw [h]
    rfl
  · intro h
    unfold combinedResults
    rw [h]
    rfl
  · intro h
    unfold combinedTotal
    rw [h]
    rfl

/-- C5 (witness): the amended statement evaluated at concrete bodies. -/
theorem response_keys_probed_witness :
    backupRecordList [("notices", Json.arr [Json.null])] = Json.arr [Json.null] ∧
    combinedTotal [("results", Json.arr [])] = Json.num 0 :=
  ⟨(response_keys_probed _).1 _ rfl, (response_keys_probed _).2.2.2.2.2 rfl⟩

/-- C5 (counterexample): claim C5 states the normalizer probes both
candidate record-list keys and defaults the total to the record count.  On
a body holding records only under "results", the backup revision returns
the empty list; on a body holding records only under "notices", the
combined revision returns the empty list; and on a body with one record
and no total key, the combined revision reports a total of 0 where the
claim requires the record count 1. -/
theorem response_keys_single_probe_counterexample :
    backupRecordList [("results", Json.arr [Json.str "r"])] = Json.arr [] ∧
    claimRecordList [("results", Json.arr [Json.str "r"])] = Json.arr [Json.str "r"] ∧
    Json.arr [] ≠ Json.arr [Json.str "r"] ∧
    combinedResults [("notices", Json.arr [Json.str "r"])] = Json.arr [] ∧
    claimRecordList [("notices", Json.arr [Json.str "r"])] = Json.arr [Json.str "r"] ∧
    combinedTotal [("results", Json.arr [Json.str "r"])] = Json.num 0 ∧
    claimTotal [("results", Json.arr [Json.str "r"])] 1 = Json.num 1 ∧
    Json.num 0 ≠ Json.num 1 := by
  refine ⟨rfl, rfl, by simp, rfl, rfl, rfl, rfl, by simp⟩

/-- A character contained in the left part is contained in the
concatenation. -/
theorem contains_append_left (l1 l2 : List Char) (c : Char) (h : l1.contains c = true) :
    (l1 ++ l2).contains c = true := by
  have h1 : c ∈ l1 := by simpa using h
  simpa using Or.inl h1

/-- C6 (counterexample): claim C6 states that a single-token free-text
value (no space) is emitted unquoted.  The backup revision interpolates the
text inside literal quote characters unconditionally: for the token
"bridge" the emitted clause carries the quote character (code 34) and is
not the unquoted form. -/
theorem single_token_quoted_counterexample :
    ("bridge".data.contains ' ') = false ∧
    textTerms { text := some "bridge" } =
      ["(notice-title ~ \"bridge\" OR buyer-name ~ \"bridge\")"] ∧
    (["(notice-title ~ \"bridge\" OR buyer-name ~ \"bridge\")"] : List String) ≠
      ["(notice-title ~ bridge OR buyer-name ~ bridge)"] ∧
    (("(notice-title ~ \"bridge\" OR buyer-name ~ \"bridge\")" : String).data.contains
      (Char.ofNat 34)) = true := by
  refine ⟨by decide, rfl, by decide, by decide⟩

/-- C6 (amended): every populated free-text value, with or without spaces,
is emitted as the first query term with the stripped phrase wrapped in
quotes; the emitted clause always contains the quote character. -/
theorem text_clause_always_quoted (f : Filters) (t : String)
    (h1 : f.text = some t) (h2 : t ≠ "") :
    ∃ rest, backupQueryTerms (some f) =
      ("(notice-title ~ \"" ++ pyStrip t ++ "\" OR buyer-name ~ \"" ++
        pyStrip t ++ "\")") :: rest ∧
      (("(notice-title ~ \"" ++ pyStrip t ++ "\" OR buyer-name ~ \"" ++
        pyStrip t ++ "\")").data.contains (Char.ofNat 34)) = true := by
  have ht : textTerms f =
      [("(notice-title ~ \"" ++ pyStrip t ++ "\" OR buyer-name ~ \"" ++
        pyStrip t ++ "\")")] := by
    unfold textTerms strTruthy
    rw [h1]
    simp [h2]
  refine ⟨countryTerms f ++ dateFromTerms f ++ dateToTerms f, ?_, ?_⟩
  · show textTerms f ++ countryTerms f ++ dateFromTerms f ++ dateToTerms f = _
    rw [ht]
    rfl
  · have base : (("(notice-title ~ \"" : String).data.contains (Char.ofNat 34)) = true := by
      decide
    have e : ("(notice-title ~ \"" ++ pyStrip t ++ "\" OR buyer-name ~ \"" ++
        pyStrip t ++ "\")").data =
        ("(notice-title ~ \"" : String).data ++
          (pyStrip t ++ "\" OR buyer-name ~ \"" ++ pyStrip t ++ "\")").data := rfl
    rw [e]
    exact contains_append_left _ _ _ base

/-- C6 (witness): the amended statement at the text "Road repair". -/
theorem text_clause_always_quoted_witness :
    (({ text := some "Road repair" } : Filters).text = some "Road repair") ∧
    ("Road repair" ≠ "") ∧
    (∃ rest, backupQueryTerms (some { text := some "Road repair" }) =
      ("(notice-title ~ \"" ++ pyStrip "Road repair" ++ "\" OR buyer-name ~ \"" ++
        pyStrip "Road repair" ++ "\")") :: rest ∧
      (("(notice-title ~ \"" ++ pyStrip "Road repair" ++ "\" OR buyer-name ~ \"" ++
        pyStrip "Road repair" ++ "\")").data.contains (Char.ofNat 34)) = true) :=
  ⟨rfl, by decide, text_clause_always_quoted _ _ rfl (by decide)⟩

/-- C7: the backup revision's country filter splits the comma-separated
string, trims whitespace, discards empty entries and uppercases each code;
one code yields exactly the single equality clause, two or more codes yield
one equality clause per code OR-combined inside one outer parenthesis in
input order - stated as the code term being exactly the claim-worded clause
of the claim-worded cleanup. -/
theorem country_clause_spec (f : Filters) (c : String)
    (h1 : f.country = some c) (h2 : c ≠ "") :
    countryTerms f = (claimCountryClause (claimCountryCodes c)).toList := by
  have hs : strTruthy f.country = some c := by
    rw [h1]
    simp [strTruthy, h2]
  unfold countryTerms
  rw [hs]
  show countryClauseOfCodes (countryCodesOf c) = (claimCountryClause (claimCountryCodes c)).toList
  rw [countryCodesOf_eq_claim]
  cases hc : claimCountryCodes c with
  | nil => rfl
  | cons a l => cases l <;> rfl

/-- C7 (witness): the statement at the inputs of the specification's
examples, including the concrete emitted clauses. -/
theorem country_clause_spec_witness :
    (({ country := some "deu, fra" } : Filters).country = some "deu, fra") ∧
    ("deu, fra" ≠ "") ∧
    countryTerms { country := some "deu, fra" } =
      (claimCountryClause (claimCountryCodes "deu, fra")).toList ∧
    countryTerms { country := some "deu, fra" } =
      ["((buyer-country = DEU) OR (buyer-country = FRA))"] ∧
    countryTerms { country := some "DEU" } = ["(buyer-country = DEU)"] :=
  ⟨rfl, by decide, country_clause_spec _ _ rfl (by decide), rfl, rfl⟩

/-- C8: claim C8 states that a non-2xx upstream response is surfaced to the
inbound caller as an upstream-error condition carrying the upstream status
code.  The backup revision's intent at lines 191-194 is exactly that - it
constructs an `HTTPException` with `status_code=response.status_code` - but
the raise sits inside the handler's own `try` block, whose final
`except Exception` clause re-wraps it: the caller observes a 500 whose
detail merely embeds the upstream status as text, not the upstream status
code itself.  A transport failure is still surfaced as a distinct 502
connection error, and neither failure class becomes a successful empty
result.  This theorem evaluates the handler at the failing input (an
upstream 404 with a JSON error message) and at a transport failure. -/
theorem upstream_status_rewrapped_500 :
    search_notices (.response 404 (some (.obj [("message", .str "Not found")]))
      "irrelevant" true) = .error (500, "404: TED API error: Not found") ∧
    search_notices (.transportFailure "connection refused") =
      .error (502, "Connection error: connection refused") := by
  exact ⟨rfl, rfl⟩

/-- C9: in both the backup revision and the `search_notices_impl` revision,
every outbound payload carries a page number of at least 1 and a page size
clamped into the range 1..100, whatever integers the caller supplied. -/
theorem outbound_pagination_clamped (request : SearchRequest) :
    1 ≤ (backupPayload request).page ∧
    1 ≤ (backupPayload request).limit ∧
    (backupPayload request).limit ≤ 100 ∧
    1 ≤ (implPayload request).page ∧
    1 ≤ (implPayload request).limit ∧
    (implPayload request).limit ≤ 100 := by
  unfold backupPayload implPayload
  refine ⟨le_max_left 1 _,
    le_min (by norm_num) (le_max_left 1 _),
    min_le_left _ _,
    le_max_left 1 _,
    le_min (by norm_num) (le_max_left 1 _),
    min_le_left _ _⟩

/-- C10: for every non-negative total and every page size of at least 1,
the page count of the combined revision's `/search` handler is the ceiling
of total over page size: it is the least number of pages covering the
total, computed as (total + page_size - 1) / page_size, and it is 0 exactly
when the total is 0. -/
theorem total_pages_ceiling (total_notices page_size : Nat) (h : 1 ≤ page_size) :
    total_pages total_notices page_size = (total_notices + page_size - 1) / page_size ∧
    total_notices ≤ page_size * total_pages total_notices page_size ∧
    page_size * total_pages total_notices page_size < total_notices + page_size ∧
    (total_pages total_notices page_size = 0 ↔ total_notices = 0) := by
  refine ⟨rfl, ?_⟩
  unfold total_pages
  obtain ⟨q, hq⟩ : ∃ q, (total_notices + page_size - 1) / page_size = q := ⟨_, rfl⟩
  obtain ⟨r, hr⟩ : ∃ r, (total_notices + page_size - 1) % page_size = r := ⟨_, rfl⟩
  have hd := Nat.div_add_mod (total_notices + page_size - 1) page_size
  rw [hq, hr] at hd
  have hm : r < page_size := hr ▸ Nat.mod_lt _ (by omega)
  rw [hq]
  have hPq : page_size * q = 0 ↔ q = 0 := by
    constructor
    · intro h0
      rcases Nat.mul_eq_zero.mp h0 with h1 | h1
      · omega
      · exact h1
    · intro h0
      rw [h0, Nat.mul_zero]
  have hge : 1 ≤ q → page_size ≤ page_size * q := fun hone =>
    Nat.le_mul_of_pos_right page_size (by omega)
  obtain ⟨P, hP⟩ : ∃ P, page_size * q = P := ⟨_, rfl⟩
  rw [hP] at hd hPq hge ⊢
  clear hq hr hP
  omega

/-- C10 (witness): the statement at total 25 and page size 10, where the
page count is 3. -/
theorem total_pages_ceiling_witness :
    (1 ≤ 10) ∧
    (total_pages 25 10 = (25 + 10 - 1) / 10 ∧
     25 ≤ 10 * total_pages 25 10 ∧
     10 * total_pages 25 10 < 25 + 10 ∧
     (total_pages 25 10 = 0 ↔ (25 : Nat) = 0)) :=
  ⟨by decide, total_pages_ceiling 25 10 (by decide)⟩
